import Mathlib

/-!
Verification of the GraphQL client execution core (`src/main.py`).

The Python source is shallowly embedded: JSON values become an inductive
`Json` type, Python dict operations become lookups over ordered association
lists (Python dicts preserve insertion order), exceptions become explicit
result constructors, and the stateful pieces (the LRU cache, the retry loop,
the websocket message loop) become explicit state-passing functions.
-/

/-- JSON-shaped values as handled by the Python client: `None`, booleans,
numbers (the examples only ever use integers), strings, lists and objects.
An object is an ordered association list, mirroring Python's insertion-ordered
`dict`. -/
inductive Json where
  | null
  | bool (b : Bool)
  | num (n : Int)
  | str (s : String)
  | arr (xs : List Json)
  | obj (fields : List (String × Json))

/-- First-match lookup in an object's field list, mirroring Python dict
indexing (a well-formed dict never has duplicate keys, so first-match is
exact). -/
def lookupField : List (String × Json) → String → Option Json
  | [], _ => none
  | (k, v) :: rest, key => if k = key then some v else lookupField rest key

/-- Python `d.get(k)`: `some` value when `d` is an object holding key `k`,
otherwise `none`. -/
def jsonGet : Json → String → Option Json
  | Json.obj fs, k => lookupField fs k
  | _, _ => none

/-- Python `d.get(k, default)`. -/
def getD (j : Json) (k : String) (d : Json) : Json :=
  match jsonGet j k with
  | some v => v
  | none => d

/-- Python truthiness of a JSON value: `None`, `False`, `0`, `""`, `[]` and
an empty object are falsy, everything else is truthy. -/
def truthy : Json → Bool
  | Json.null => false
  | Json.bool b => b
  | Json.num n => n != 0
  | Json.str s => s != ""
  | Json.arr xs => !xs.isEmpty
  | Json.obj fs => !fs.isEmpty

/-- Python `message.get("type") == t`: true exactly when the `type` field is
present, is a string, and equals `t`. -/
def isType (m : Json) (t : String) : Bool :=
  match jsonGet m "type" with
  | some (Json.str s) => s == t
  | _ => false

/-- Key order used by `json.dumps(..., sort_keys=True)`: fields compare by
their key string. -/
def keyLe (p q : String × Json) : Prop := p.1 ≤ q.1

instance : DecidableRel keyLe := fun p q => inferInstanceAs (Decidable (p.1 ≤ q.1))

instance : IsTotal (String × Json) keyLe := ⟨fun p q => le_total p.1 q.1⟩

instance : IsTrans (String × Json) keyLe := ⟨fun _ _ _ h1 h2 => le_trans h1 h2⟩

/-- Sort an object's fields by key, as `json.dumps(..., sort_keys=True)`
does before writing an object out. -/
def sortFields (fs : List (String × Json)) : List (String × Json) :=
  List.insertionSort keyLe fs

mutual
/-- Recursively sort every object's fields by key. `json.dumps` with
`sort_keys=True` writes exactly the serialization of this canonical form. -/
def canon : Json → Json
  | Json.null => Json.null
  | Json.bool b => Json.bool b
  | Json.num n => Json.num n
  | Json.str s => Json.str s
  | Json.arr xs => Json.arr (canonList xs)
  | Json.obj fs => Json.obj (sortFields (canonFields fs))
termination_by structural j => j
def canonList : List Json → List Json
  | [] => []
  | x :: xs => canon x :: canonList xs
termination_by structural xs => xs
def canonFields : List (String × Json) → List (String × Json)
  | [] => []
  | (k, v) :: rest => (k, canon v) :: canonFields rest
termination_by structural fs => fs
end

mutual
/-- Serialize a JSON value in the textual shape produced by Python's
`json.dumps` with its default separators (`", "` and `": "`). String escaping
is not modelled; the values in play contain no characters needing escapes. -/
def render : Json → String
  | Json.null => "null"
  | Json.bool true => "true"
  | Json.bool false => "false"
  | Json.num n => toString n
  | Json.str s => "\"" ++ s ++ "\""
  | Json.arr xs => "[" ++ renderList xs ++ "]"
  | Json.obj fs => "\x7b" ++ renderFields fs ++ "\x7d"
termination_by structural j => j
def renderList : List Json → String
  | [] => ""
  | [x] => render x
  | x :: y :: rest => render x ++ ", " ++ renderList (y :: rest)
termination_by structural xs => xs
def renderFields : List (String × Json) → String
  | [] => ""
  | [(k, v)] => "\"" ++ k ++ "\": " ++ render v
  | (k, v) :: q :: rest => "\"" ++ k ++ "\": " ++ render v ++ ", " ++ renderFields (q :: rest)
termination_by structural fs => fs
end

/-- Model of `json.dumps(j, sort_keys=True)` (src/main.py lines 297 and 312):
serialize with every object's keys in sorted order. -/
def dumps (j : Json) : String := render (canon j)

/-- Stand-in for `hashlib.md5(content.encode()).hexdigest()` (src/main.py
line 298): an arbitrary deterministic digest of the content string. Only the
fact that it is a function of the content — equal content gives an equal
digest — matters for the properties proved here. -/
def md5_hexdigest (s : String) : String :=
  toString (s.foldl (fun h c => (h * 31 + c.toNat) % 1000000007) 7)

/-- Subscription client (src/main.py lines 224 and following). -/
structure GraphQLSubscriptionClient where
  ws_endpoint : String

/-- Message loop of `GraphQLSubscriptionClient.subscribe` (src/main.py lines
250 to 253): for each inbound frame, a frame whose `type` field equals
`"data"` yields `frame.get("payload", dict()).get("data", dict())`; every
other frame (including `error` and `complete` frames) is skipped and the
loop keeps listening. The loop ends when the connection's frame stream
ends. -/
def listenYields (frames : List Json) : List Json :=
  frames.filterMap (fun m =>
    if isType m "data" then some (getD (getD m "payload" (Json.obj [])) "data" (Json.obj []))
    else none)

/-- Model of `GraphQLSubscriptionClient.subscribe` (src/main.py lines 228 to
253). `frames` is the sequence of inbound frames delivered over the
connection's lifetime. After sending `connection_init` the code executes
`response = await websocket.recv()`, consuming the first inbound frame
without ever inspecting it (meant to be the connection acknowledgement),
then sends `start` and yields from the remaining frames. With no inbound
frame at all, `recv` fails on the closed connection (`none`). Outbound
frames carry `subscription_query` and the variables and are not further
modelled, as no claim observes them. -/
def GraphQLSubscriptionClient.subscribe (c : GraphQLSubscriptionClient)
    (subscription_query : String) (vars : List (String × Json))
    (frames : List Json) : Option (List Json) :=
  match frames with
  | [] => none
  | _ack :: rest => some (listenYields rest)

/-- Outcome of one transport attempt (`SimpleGraphQLClient.execute`, which
`RobustGraphQLClient` wraps): a received JSON envelope, or a raised
`requests.exceptions.RequestException` with its cause. -/
inductive TransportResult where
  | ok (response : Json)
  | exn (cause : String)

/-- Outcome of `RobustGraphQLClient.execute_with_retry`: a returned envelope,
a raised `GraphQLError` (src/main.py lines 256 to 259 — the exception stores
only `result["errors"]`), the re-raised last `RequestException`, or the
final `Exception("Max retries exceeded")`. -/
inductive ExecResult where
  | ok (response : Json)
  | graphqlError (errors : Json)
  | transportError (cause : String)
  | maxRetriesExceeded

/-- The retry loop of `execute_with_retry` (src/main.py lines 268 to 284).
`transport k` is the outcome of the `k`-th transport invocation; the second
component of the result counts transport invocations. Each iteration calls
the transport; a received envelope holding an `"errors"` key raises
`GraphQLError(result["errors"])` (not caught by the `except` clause, which
only catches `RequestException`); an envelope without that key is returned;
a `RequestException` on the last attempt (`attempt == max_retries - 1`,
i.e. one unit of fuel left) is re-raised, otherwise the loop continues. -/
def retryLoop (transport : Nat → TransportResult) (attempt : Nat) : Nat → ExecResult × Nat
  | 0 => (ExecResult.maxRetriesExceeded, 0)
  | Nat.succ n =>
    match transport attempt with
    | TransportResult.ok result =>
      match jsonGet result "errors" with
      | some errs => (ExecResult.graphqlError errs, 1)
      | none => (ExecResult.ok result, 1)
    | TransportResult.exn e =>
      match n with
      | 0 => (ExecResult.transportError e, 1)
      | Nat.succ n2 =>
        ((retryLoop transport (attempt + 1) (Nat.succ n2)).1,
         (retryLoop transport (attempt + 1) (Nat.succ n2)).2 + 1)

/-- Client with retry logic (src/main.py lines 261 to 264). -/
structure RobustGraphQLClient where
  max_retries : Nat

/-- Model of `RobustGraphQLClient.execute_with_retry` (src/main.py lines 266
to 284): run the retry loop with `max_retries` attempts of fuel. -/
def RobustGraphQLClient.execute_with_retry (c : RobustGraphQLClient)
    (transport : Nat → TransportResult) : ExecResult × Nat :=
  retryLoop transport 0 c.max_retries

/-- Caching client (src/main.py lines 290 to 293). The constructor stores
`cache_size`, but nothing else ever reads it: the `lru_cache` decorator on
`_execute_cached` is applied with the literal `maxsize=128` at class
definition time. -/
structure CachedGraphQLClient where
  cache_size : Nat

/-- Model of `CachedGraphQLClient._cache_key` (src/main.py lines 295 to 298):
digest of the query text concatenated with the key-sorted JSON serialization
of the variables (`variables or dict()` in the source makes absent
variables serialize as the empty object, which the empty field list also
covers). -/
def CachedGraphQLClient.cache_key (c : CachedGraphQLClient) (query : String)
    (vars : List (String × Json)) : String :=
  md5_hexdigest (query ++ dumps (Json.obj vars))

/-- State of the `lru_cache` store backing `_execute_cached`: entries from
most recently used (head) to least recently used (tail), keyed by the
`(query, variables_json)` argument pair. -/
abbrev CacheState := List ((String × String) × Json)

/-- Lookup of a key in the cache store. -/
def lruLookup : CacheState → (String × String) → Option Json
  | [], _ => none
  | (k, v) :: rest, key => if k = key then some v else lruLookup rest key

/-- Remove the entry with the given key, used when a hit moves an entry to
the most-recently-used position. -/
def eraseKey : CacheState → (String × String) → CacheState
  | [], _ => []
  | (k, v) :: rest, key => if k = key then rest else (k, v) :: eraseKey rest key

/-- Model of `CachedGraphQLClient.execute` together with the
`lru_cache`-decorated `_execute_cached` it calls (src/main.py lines 300 to
314). With `use_cache` false the transport is called directly and the store
is untouched. Otherwise the store is consulted at key
`(query, json.dumps(vars or dict(), sort_keys=True))`: a hit returns
the cached response and moves the entry to the most-recently-used position
without calling the transport; a miss calls the transport once, inserts the
response at the most-recently-used position and drops the
least-recently-used entry once the store exceeds 128 entries — the literal
`maxsize=128` of the decorator, independent of `cache_size`. The
`json.dumps`/`json.loads` round trip `_execute_cached` performs to keep its
arguments hashable is the identity on the values involved and is elided;
the store is modelled as holding the response value itself. The result
triple is (returned response, store afterwards, transport invocations). -/
def CachedGraphQLClient.execute (c : CachedGraphQLClient)
    (transport : String → Json → Json) (st : CacheState) (query : String)
    (vars : List (String × Json)) (use_cache : Bool) :
    Json × CacheState × Nat :=
  if use_cache then
    match lruLookup st (query, dumps (Json.obj vars)) with
    | some v =>
      (v, ((query, dumps (Json.obj vars)), v) ::
            eraseKey st (query, dumps (Json.obj vars)), 0)
    | none =>
      (transport query (Json.obj vars),
       (((query, dumps (Json.obj vars)), transport query (Json.obj vars)) :: st).take 128,
       1)
  else
    (transport query (Json.obj vars), st, 1)

/-- Typed entity (src/main.py lines 67 to 72). Python dataclasses do not
check field types, so the fields hold whatever JSON values the response
carried. -/
structure Author where
  id : Json
  name : Json
  birth_year : Json

/-- Typed entity (src/main.py lines 74 to 80). -/
structure Book where
  id : Json
  title : Json
  genre : Json
  published_year : Json
  author : Option Author

/-- Python `d[k]` on a response object: the value on success, a raised
`KeyError` carrying the missing key otherwise (indexing a non-mapping, which
also raises, is folded into the same error case). -/
def getItem (j : Json) (k : String) : Except String Json :=
  match j with
  | Json.obj fs =>
    match lookupField fs k with
    | some v => Except.ok v
    | none => Except.error k
  | _ => Except.error k

/-- Construction of an `Author` inside `get_all_books` (src/main.py lines
112 to 116): the three fields are read with indexing, in source order. -/
def parseAuthor (author_data : Json) : Except String Author := do
  let i ← getItem author_data "id"
  let n ← getItem author_data "name"
  let b ← getItem author_data "birthYear"
  pure (Author.mk i n b)

/-- Body of the loop in `get_all_books` (src/main.py lines 108 to 125):
`book_data.get("author")` is checked for truthiness (so a missing or null
author yields `none`); then the `Book` constructor arguments are read with
indexing in source order — `id`, `title`, `genre`, `publishedYear` — any
missing one raising `KeyError`. -/
def parseBook (book_data : Json) : Except String Book := do
  let author ←
    if truthy (getD book_data "author" Json.null) then do
      let a ← parseAuthor (getD book_data "author" Json.null)
      pure (some a)
    else pure (Option.none)
  let i ← getItem book_data "id"
  let t ← getItem book_data "title"
  let g ← getItem book_data "genre"
  let y ← getItem book_data "publishedYear"
  pure (Book.mk i t g y author)

/-- The loop of `get_all_books` over `books_data`, first failure aborting as
a raised exception would. -/
def mapBooksList : List Json → Except String (List Book)
  | [] => Except.ok []
  | bd :: rest => do
    let b ← parseBook bd
    let bs ← mapBooksList rest
    pure (b :: bs)

/-- Model of `TypedGraphQLClient.get_all_books` (src/main.py lines 86 to
127) applied to the envelope its `execute` call returned:
`result.get("data", dict()).get("books", [])` selects the book list (so a
missing `data` or `books` yields the empty list), then each entry is mapped
to a `Book`. -/
def TypedGraphQLClient.get_all_books (result : Json) : Except String (List Book) :=
  match getD (getD result "data" (Json.obj [])) "books" (Json.arr []) with
  | Json.arr xs => mapBooksList xs
  | _ => Except.error "books"

/-- Envelope with partial data `x = 1` alongside a non-empty error list. -/
def envPartialA : Json :=
  Json.obj [("data", Json.obj [("x", Json.num 1)]),
            ("errors", Json.arr [Json.str "e"])]

/-- Envelope identical to `envPartialA` except its partial data is
`x = 2`. -/
def envPartialB : Json :=
  Json.obj [("data", Json.obj [("x", Json.num 2)]),
            ("errors", Json.arr [Json.str "e"])]

/-- Store of 128 distinct dummy entries used to witness the eviction
behaviour at full capacity. -/
def stFull : CacheState :=
  (List.range 128).map (fun i => (("k" ++ toString i, "\x7b\x7d"), Json.null))

/-- C1: for every subscription stream produced by
`GraphQLSubscriptionClient.subscribe`, if the server emits (after the
connection acknowledgement) the message sequence data(1), data(2), complete,
then the stream yields exactly payload-1 followed by payload-2 and then
terminates, yielding no further elements after the complete message. -/
theorem c1_subscription_ordering (c : GraphQLSubscriptionClient) (sq : String)
    (vars : List (String × Json)) (p1 p2 : Json) :
    c.subscribe sq vars
      [Json.obj [("type", Json.str "connection_ack")],
       Json.obj [("type", Json.str "data"), ("id", Json.str "1"),
                 ("payload", Json.obj [("data", p1)])],
       Json.obj [("type", Json.str "data"), ("id", Json.str "1"),
                 ("payload", Json.obj [("data", p2)])],
       Json.obj [("type", Json.str "complete"), ("id", Json.str "1")]]
      = some [p1, p2] := rfl

/-- C2: a transport that raises a `TransportError` on every attempt causes
`execute_with_retry` with `max_retries = 3` to invoke the transport exactly
3 times and then re-raise the third (last) `TransportError` it received,
carrying the last underlying cause — not the generic
"Max retries exceeded" error. -/
theorem c2_retry_bound (e : Nat → String) :
    RobustGraphQLClient.execute_with_retry ⟨3⟩ (fun k => TransportResult.exn (e k))
      = (ExecResult.transportError (e 2), 3) := rfl

/-- C3 counterexample: the claim quantifies over every `max_attempts` value,
but with `max_retries = 0` the loop body never runs, so a transport that
would return an envelope with non-empty `errors` is invoked 0 times (not
exactly once) and the generic `Exception("Max retries exceeded")` is raised
instead of a `GraphQLError`. -/
theorem c3_counterexample :
    RobustGraphQLClient.execute_with_retry ⟨0⟩
      (fun _ => TransportResult.ok
        (Json.obj [("errors", Json.arr [Json.str "boom"])]))
      = (ExecResult.maxRetriesExceeded, 0) := rfl

/-- C9 counterexample: with the session in the Ack-Pending state (right
after `connection_init` is sent), the claim requires a non-acknowledgement
message to fail the session with a `ProtocolViolationError`. The code
instead stores the first inbound frame without inspecting it: here the first
frame is a `data` message (invalid while Ack-Pending), yet the session
proceeds as if acknowledged, moves on to yielding, and produces the later
payload — no failure of any kind occurs (the source defines no
`ProtocolViolationError` at all). -/
theorem c9_counterexample :
    GraphQLSubscriptionClient.subscribe ⟨"ws"⟩ "subscription" []
      [Json.obj [("type", Json.str "data"),
                 ("payload", Json.obj [("data", Json.str "early")])],
       Json.obj [("type", Json.str "data"),
                 ("payload", Json.obj [("data", Json.str "later")])]]
      = some [Json.str "later"] := rfl

/-- C9 amended: after sending `connection_init` the session consumes exactly
one inbound frame and proceeds to the active phase regardless of that
frame's type — receiving the connection acknowledgement transitions it to
active, but so does any other message, because no validation is performed
and no protocol-violation failure exists. -/
theorem c9_ack_ignored (c : GraphQLSubscriptionClient) (sq : String)
    (vars : List (String × Json)) (first1 first2 : Json) (rest : List Json) :
    c.subscribe sq vars (first1 :: rest) = c.subscribe sq vars (first2 :: rest)
    ∧ c.subscribe sq vars (Json.obj [("type", Json.str "connection_ack")] :: rest)
        = some (listenYields rest) :=
  ⟨rfl, rfl⟩

/-- C7 counterexample: against the envelope
`data.books = [obj (id 1, title "1984")]` the claim requires a one-element
`Book` list; the code instead evaluates `book_data["genre"]` (src/main.py
line 121) on an object with no `genre` key and raises `KeyError("genre")`,
yielding no book list at all. -/
theorem c7_counterexample :
    TypedGraphQLClient.get_all_books
      (Json.obj [("data", Json.obj [("books", Json.arr
        [Json.obj [("id", Json.num 1), ("title", Json.str "1984")]])])])
      = Except.error "genre" := rfl

/-- C7 amended: the mapping succeeds only when every scalar field the query
requests is present. Against an envelope whose single book object carries
`id = 1`, `title = "1984"` and any `genre` and `publishedYear` values, and
no author, `get_all_books` yields a `Book` list of length 1 whose single
element has id 1, title "1984", the given scalars, and an explicitly absent
(`none`) author; with `genre`/`publishedYear` missing, as in the claim's
envelope, it raises `KeyError` instead. -/
theorem c7_books_mapping (g y : Json) :
    TypedGraphQLClient.get_all_books
      (Json.obj [("data", Json.obj [("books", Json.arr
        [Json.obj [("id", Json.num 1), ("title", Json.str "1984"),
                   ("genre", g), ("publishedYear", y)]])])])
      = Except.ok [Book.mk (Json.num 1) (Json.str "1984") g y Option.none] := rfl

lemma retryLoop_first_errors (t : Nat → TransportResult) (m : Nat) (env errs : Json)
    (hm : 1 ≤ m) (h0 : t 0 = TransportResult.ok env)
    (he : jsonGet env "errors" = some errs) :
    retryLoop t 0 m = (ExecResult.graphqlError errs, 1) := by
  cases m with
  | zero => omega
  | succ n => simp only [retryLoop.eq_2, h0, he]

lemma retryLoop_ok_no_errors (t : Nat → TransportResult) :
    ∀ (rem att : Nat) (r : Json) (n : Nat),
      retryLoop t att rem = (ExecResult.ok r, n) → jsonGet r "errors" = none := by
  intro rem
  induction rem with
  | zero =>
    intro att r n h
    simp [retryLoop.eq_1] at h
  | succ m ih =>
    intro att r n h
    cases htr : t att with
    | ok result =>
      cases hje : jsonGet result "errors" with
      | some errs =>
        simp only [retryLoop.eq_2, htr, hje] at h
        simp at h
      | none =>
        simp only [retryLoop.eq_2, htr, hje, Prod.mk.injEq, ExecResult.ok.injEq] at h
        rw [← h.1]
        exact hje
    | exn e =>
      rw [retryLoop.eq_2, htr] at h
      dsimp only at h
      cases m with
      | zero => simp at h
      | succ m2 =>
        dsimp only at h
        rcases hr : retryLoop t (att + 1) (Nat.succ m2) with ⟨r2, n2⟩
        rw [hr] at h
        simp only [Prod.mk.injEq] at h
        rw [h.1] at hr
        exact ih (att + 1) r n2 hr

/-- C3 amended: for every client with `max_retries` at least 1, a transport
whose first attempt successfully returns an envelope whose `errors` field is
a non-empty sequence causes `execute_with_retry` to invoke the transport
exactly once and immediately raise `GraphQLError` carrying that sequence,
without any retry (with `max_retries = 0` the transport is instead never
invoked and the generic max-retries-exceeded error is raised, see the
counterexample). -/
theorem c3_semantic_error_no_retry (c : RobustGraphQLClient)
    (t : Nat → TransportResult) (env : Json) (es : List Json)
    (hm : 1 ≤ c.max_retries) (h0 : t 0 = TransportResult.ok env)
    (he : jsonGet env "errors" = some (Json.arr es)) (hne : es ≠ []) :
    c.execute_with_retry t = (ExecResult.graphqlError (Json.arr es), 1) :=
  retryLoop_first_errors t c.max_retries env (Json.arr es) hm h0 he

/-- Witness for `c3_semantic_error_no_retry` at a concrete client, transport
and envelope. -/
theorem c3_witness :
    RobustGraphQLClient.execute_with_retry ⟨5⟩
      (fun _ => TransportResult.ok
        (Json.obj [("data", Json.null), ("errors", Json.arr [Json.str "bad"])]))
      = (ExecResult.graphqlError (Json.arr [Json.str "bad"]), 1) :=
  c3_semantic_error_no_retry ⟨5⟩ _ _ [Json.str "bad"] (by decide) rfl rfl
    (by simp)

/-- C8 counterexample: the claim requires the raised error to carry the
partial data. Two envelopes with the same `errors` but different partial
`data` produce identical outcomes of `execute_with_retry`, because
`GraphQLError` stores only `result["errors"]` (src/main.py lines 256 to
259 and 274) — so the caller cannot observe the partial data from the
raised error. -/
theorem c8_counterexample :
    RobustGraphQLClient.execute_with_retry ⟨3⟩ (fun _ => TransportResult.ok envPartialA)
      = RobustGraphQLClient.execute_with_retry ⟨3⟩ (fun _ => TransportResult.ok envPartialB)
    ∧ envPartialA ≠ envPartialB := by
  refine ⟨rfl, ?_⟩
  simp [envPartialA, envPartialB]

/-- C8 amended: for every envelope containing both data and a non-empty
errors sequence, the `GraphQLError` raised to the caller carries the full
ordered error sequence — and nothing else: the exception is determined by
the `errors` field alone, so any second envelope with the same errors but
arbitrary other content (in particular different partial data) raises the
identical error; the partial data is not carried. -/
theorem c8_error_carries_errors_only (c1 c2 : RobustGraphQLClient)
    (t1 t2 : Nat → TransportResult) (env1 env2 errs : Json)
    (hm1 : 1 ≤ c1.max_retries) (hm2 : 1 ≤ c2.max_retries)
    (h1 : t1 0 = TransportResult.ok env1) (h2 : t2 0 = TransportResult.ok env2)
    (he1 : jsonGet env1 "errors" = some errs)
    (he2 : jsonGet env2 "errors" = some errs) :
    c1.execute_with_retry t1 = (ExecResult.graphqlError errs, 1)
    ∧ c1.execute_with_retry t1 = c2.execute_with_retry t2 := by
  have r1 := retryLoop_first_errors t1 c1.max_retries env1 errs hm1 h1 he1
  have r2 := retryLoop_first_errors t2 c2.max_retries env2 errs hm2 h2 he2
  exact ⟨r1, r1.trans r2.symm⟩

/-- Witness for `c8_error_carries_errors_only` at the two concrete partial
envelopes. -/
theorem c8_witness :
    RobustGraphQLClient.execute_with_retry ⟨3⟩ (fun _ => TransportResult.ok envPartialA)
      = (ExecResult.graphqlError (Json.arr [Json.str "e"]), 1)
    ∧ RobustGraphQLClient.execute_with_retry ⟨3⟩ (fun _ => TransportResult.ok envPartialA)
      = RobustGraphQLClient.execute_with_retry ⟨4⟩ (fun _ => TransportResult.ok envPartialB) :=
  c8_error_carries_errors_only ⟨3⟩ ⟨4⟩ _ _ envPartialA envPartialB _
    (by decide) (by decide) rfl rfl rfl rfl

/-- C10: whenever the first transport attempt successfully returns an
envelope in which the key `"errors"` is present at all — whatever it maps
to, an empty sequence included, and whether or not `data` is also present —
`execute_with_retry` (with at least one attempt of fuel) raises
`GraphQLError` on that first attempt, invoking the transport exactly once
and never returning the envelope; and conversely every envelope
`execute_with_retry` ever returns has no `"errors"` key. -/
theorem c10_errors_key_always_raises (c : RobustGraphQLClient)
    (t : Nat → TransportResult) (env errs : Json) (hm : 1 ≤ c.max_retries)
    (h0 : t 0 = TransportResult.ok env) (he : jsonGet env "errors" = some errs) :
    c.execute_with_retry t = (ExecResult.graphqlError errs, 1)
    ∧ ∀ (c2 : RobustGraphQLClient) (t2 : Nat → TransportResult) (r : Json) (n : Nat),
        c2.execute_with_retry t2 = (ExecResult.ok r, n) → jsonGet r "errors" = none := by
  constructor
  · exact retryLoop_first_errors t c.max_retries env errs hm h0 he
  · intro c2 t2 r n h
    exact retryLoop_ok_no_errors t2 c2.max_retries 0 r n h

/-- Witness for `c10_errors_key_always_raises`: an envelope whose `errors`
key maps to the empty sequence while `data` is present still raises, and a
returned envelope has no `errors` key. -/
theorem c10_witness :
    RobustGraphQLClient.execute_with_retry ⟨3⟩
      (fun _ => TransportResult.ok
        (Json.obj [("data", Json.null), ("errors", Json.arr [])]))
      = (ExecResult.graphqlError (Json.arr []), 1)
    ∧ jsonGet (Json.obj [("data", Json.null)]) "errors" = none := by
  have h := c10_errors_key_always_raises ⟨3⟩
    (fun _ => TransportResult.ok
      (Json.obj [("data", Json.null), ("errors", Json.arr [])]))
    (Json.obj [("data", Json.null), ("errors", Json.arr [])]) (Json.arr [])
    (by decide) rfl rfl
  exact ⟨h.1, h.2 ⟨1⟩ (fun _ => TransportResult.ok (Json.obj [("data", Json.null)]))
    (Json.obj [("data", Json.null)]) 1 rfl⟩

lemma take128_cons (a : (String × String) × Json) (l : CacheState) :
    (a :: l).take 128 = a :: l.take 127 := rfl

lemma eraseKey_length (st : CacheState) (k : (String × String)) (v : Json)
    (h : lruLookup st k = some v) : (eraseKey st k).length + 1 = st.length := by
  induction st with
  | nil => simp [lruLookup] at h
  | cons p rest ih =>
    obtain ⟨pk, pv⟩ := p
    by_cases hk : pk = k
    · simp [eraseKey, hk]
    · simp only [lruLookup, hk, if_false] at h
      simp [eraseKey, hk, ih h]

/-- C5: after a cached execute of a request returns a value, an immediate
second cached execute of the same request against the same backing store
(the same transport function) returns the same value, and its transport
invocation count is 0 — the transport is not invoked a second time. -/
theorem c5_cached_execute_returns_cached (c : CachedGraphQLClient)
    (transport : String → Json → Json) (st : CacheState) (q : String)
    (vars : List (String × Json)) :
    (c.execute transport (c.execute transport st q vars true).2.1 q vars true).1
      = (c.execute transport st q vars true).1
    ∧ (c.execute transport (c.execute transport st q vars true).2.1 q vars true).2.2
      = 0 := by
  cases h : lruLookup st (q, dumps (Json.obj vars)) with
  | some v => simp [CachedGraphQLClient.execute, h, lruLookup]
  | none => simp [CachedGraphQLClient.execute, h, take128_cons, lruLookup]

/-- C6 counterexample: the claim says a client constructed with capacity
`N = 1` keeps at most 1 entry, the second distinct key evicting the first.
In the code the `lru_cache` decorator's `maxsize=128` is fixed at class
definition time and `self.cache_size` is never read, so after two cache
misses on distinct queries the store of a `cache_size = 1` client holds 2
entries and the first key is still cached, not evicted. -/
theorem c6_counterexample :
    (CachedGraphQLClient.mk 1).cache_size = 1
    ∧ ((CachedGraphQLClient.mk 1).execute (fun q _ => Json.str q)
         ((CachedGraphQLClient.mk 1).execute (fun q _ => Json.str q) [] "q1" [] true).2.1
         "q2" [] true).2.1.length = 2
    ∧ lruLookup
        ((CachedGraphQLClient.mk 1).execute (fun q _ => Json.str q)
          ((CachedGraphQLClient.mk 1).execute (fun q _ => Json.str q) [] "q1" [] true).2.1
          "q2" [] true).2.1
        ("q1", dumps (Json.obj []))
        = some (Json.str "q1") :=
  ⟨rfl, rfl, rfl⟩

/-- C6 amended: the store backing `_execute_cached` has capacity 128
regardless of the `cache_size` the client was constructed with. For every
client: (a) a store of at most 128 entries still has at most 128 entries
after any execute; (b) inserting a fresh 129th distinct key into a full
128-entry store evicts exactly the least-recently-used (last) entry, the
new entry becoming most recent and all other entries remaining cached in
order. -/
theorem c6_lru_capacity_128 (c : CachedGraphQLClient)
    (transport : String → Json → Json) :
    (∀ (st : CacheState) (q : String) (vars : List (String × Json)) (u : Bool),
       st.length ≤ 128 → ((c.execute transport st q vars u).2.1).length ≤ 128)
    ∧ (∀ (st : CacheState) (q : String) (vars : List (String × Json)),
       st.length = 128 →
       lruLookup st (q, dumps (Json.obj vars)) = none →
       c.execute transport st q vars true
         = (transport q (Json.obj vars),
            ((q, dumps (Json.obj vars)), transport q (Json.obj vars)) :: st.dropLast,
            1)) := by
  constructor
  · intro st q vars u hlen
    cases u with
    | false => simpa [CachedGraphQLClient.execute] using hlen
    | true =>
      cases h : lruLookup st (q, dumps (Json.obj vars)) with
      | some v =>
        have he := eraseKey_length st (q, dumps (Json.obj vars)) v h
        simp [CachedGraphQLClient.execute, h]
        omega
      | none =>
        simp [CachedGraphQLClient.execute, h, List.length_take]
  · intro st q vars hlen hmiss
    simp only [CachedGraphQLClient.execute, hmiss, if_true, take128_cons]
    rw [List.dropLast_eq_take, hlen]

/-- Witness for `c6_lru_capacity_128`: on the concrete full store, a miss
on a fresh key keeps the store at 128 entries, inserting the new entry in
front and dropping the last. -/
theorem c6_witness :
    (CachedGraphQLClient.mk 5).execute (fun _ _ => Json.null) stFull "fresh" [] true
      = (Json.null, (("fresh", dumps (Json.obj [])), Json.null) :: stFull.dropLast, 1) :=
  ((c6_lru_capacity_128 ⟨5⟩ (fun _ _ => Json.null)).2 stFull "fresh" []
    (by simp [stFull]) rfl)

lemma canonFields_eq_map (l : List (String × Json)) :
    canonFields l = l.map (fun p => (p.1, canon p.2)) := by
  induction l with
  | nil => rfl
  | cons p rest ih =>
    obtain ⟨k, v⟩ := p
    simp [canonFields, ih]

lemma canonFields_map_fst (l : List (String × Json)) :
    (canonFields l).map Prod.fst = l.map Prod.fst := by
  induction l with
  | nil => rfl
  | cons p rest ih =>
    obtain ⟨k, v⟩ := p
    simp [canonFields, ih]

lemma perm_sorted_nodup_eq :
    ∀ (l1 l2 : List (String × Json)), l1.Perm l2 → l1.Sorted keyLe →
      l2.Sorted keyLe → (l1.map Prod.fst).Nodup → l1 = l2 := by
  intro l1
  induction l1 with
  | nil =>
    intro l2 hp _ _ _
    exact (hp.symm.eq_nil).symm
  | cons a t1 ih =>
    intro l2 hp h1 h2 hn
    cases l2 with
    | nil => exact absurd hp.eq_nil (by simp)
    | cons b t2 =>
      have hmem_a : a ∈ b :: t2 := hp.mem_iff.mp (List.mem_cons_self a t1)
      have hmem_b : b ∈ a :: t1 := (hp.symm.mem_iff).mp (List.mem_cons_self b t2)
      have hs1 := List.sorted_cons.mp h1
      have hs2 := List.sorted_cons.mp h2
      rw [List.map_cons] at hn
      have hnd := List.nodup_cons.mp hn
      have hab : a = b := by
        rcases List.mem_cons.mp hmem_a with h | ha2
        · exact h
        · rcases List.mem_cons.mp hmem_b with h | hb1
          · exact h.symm
          · have hle1 : a.1 ≤ b.1 := hs1.1 b hb1
            have hle2 : b.1 ≤ a.1 := hs2.1 a ha2
            have hmem : a.1 ∈ t1.map Prod.fst := by
              rw [le_antisymm hle1 hle2]
              exact List.mem_map_of_mem Prod.fst hb1
            exact absurd hmem hnd.1
      subst hab
      rw [ih t2 hp.cons_inv hs1.2 hs2.2 hnd.2]

lemma sortFields_perm_eq (l1 l2 : List (String × Json)) (hp : l1.Perm l2)
    (hn : (l1.map Prod.fst).Nodup) : sortFields l1 = sortFields l2 := by
  simp only [sortFields]
  apply perm_sorted_nodup_eq
  · exact (List.perm_insertionSort keyLe l1).trans
      (hp.trans (List.perm_insertionSort keyLe l2).symm)
  · exact List.sorted_insertionSort keyLe l1
  · exact List.sorted_insertionSort keyLe l2
  · exact ((List.perm_insertionSort keyLe l1).map Prod.fst).nodup_iff.mpr hn

lemma canon_obj_perm (v1 v2 : List (String × Json)) (hp : v1.Perm v2)
    (hn : (v1.map Prod.fst).Nodup) : canon (Json.obj v1) = canon (Json.obj v2) := by
  have hcf : (canonFields v1).Perm (canonFields v2) := by
    rw [canonFields_eq_map, canonFields_eq_map]
    exact hp.map _
  have hnf : ((canonFields v1).map Prod.fst).Nodup := by
    rw [canonFields_map_fst]
    exact hn
  simp only [canon]
  rw [sortFields_perm_eq (canonFields v1) (canonFields v2) hcf hnf]

/-- C4: for every client, every document and every pair of variables
mappings holding the same key-value pairs but in a different insertion
order (with, as in any Python dict, no duplicate keys), the derived cache
key `_cache_key` is identical, and so is the `variables_json` serialization
`execute` actually keys the `lru_cache` store with — so both mappings hit
the same cache entry. -/
theorem c4_cache_key_determinism (c : CachedGraphQLClient) (q : String)
    (v1 v2 : List (String × Json)) (hp : v1.Perm v2)
    (hn : (v1.map Prod.fst).Nodup) :
    c.cache_key q v1 = c.cache_key q v2
    ∧ dumps (Json.obj v1) = dumps (Json.obj v2) := by
  have hd : dumps (Json.obj v1) = dumps (Json.obj v2) := by
    unfold dumps
    rw [canon_obj_perm v1 v2 hp hn]
  refine ⟨?_, hd⟩
  unfold CachedGraphQLClient.cache_key
  rw [hd]

/-- Witness for `c4_cache_key_determinism` at the spec's example pair
`(a 1, b 2)` versus `(b 2, a 1)`. -/
theorem c4_witness :
    (CachedGraphQLClient.mk 128).cache_key "q" [("a", Json.num 1), ("b", Json.num 2)]
      = (CachedGraphQLClient.mk 128).cache_key "q" [("b", Json.num 2), ("a", Json.num 1)]
    ∧ dumps (Json.obj [("a", Json.num 1), ("b", Json.num 2)])
      = dumps (Json.obj [("b", Json.num 2), ("a", Json.num 1)]) :=
  c4_cache_key_determinism ⟨128⟩ "q" _ _ (List.Perm.swap _ _ _) (by decide)
